import Mathlib

/-!
Shallow embedding of the Deep_Data application (a tkinter GUI shell around
pandas / sklearn-style adapters) for verification of its specification.

The modelled source files are `data_import.py` and `gui.py`.  The adapter
modules `method_storage.py`, `preprocessing.py`, `modeling.py` and
`post_analysis.py` are referenced by the GUI but absent from the repository,
so they are modelled from the spec (each such definition carries a doc
comment starting with `Modelled from the spec:`).

Conventions of the embedding:
* a pandas DataFrame is a `Table α`: a header (list of column names) plus a
  list of rows; the cell type is `String` for freshly parsed files and
  `Value` (string-or-real cell) for the table held by the GUI shell;
* Python exceptions are `Except String` results; a GUI callback is a state
  transition `ShellState → ShellState × Option String` whose second
  component is an exception escaping the callback uncaught (`none` means the
  callback returned normally);
* Python floats are idealised as real numbers, so the expression evaluator
  of the preprocessing adapter is `noncomputable` (it uses `Real.logb`);
* `pd.read_csv` on a text file is modelled as splitting each line at the
  separator (quoting, dtype inference and ragged-row errors are abstracted
  away; no claim depends on them).
-/

/-- A cell of the table held by the GUI shell: pandas cells are dynamically
typed; the claims only need string cells and numeric (float) cells. -/
inductive Value
  | str (s : String)
  | num (x : ℝ)

/-- A DataFrame: named columns and a list of rows. -/
structure Table (α : Type) where
  header : List String
  rows : List (List α)
deriving Repr, DecidableEq

/-- The content of a file handed to the importer: raw text lines (for `.csv`
and `.txt`, parsed by a delimiter) or a pre-parsed spreadsheet (for `.xlsx`,
whose binary parsing is done wholly by the external library). -/
inductive FileData
  | text (lines : List String)
  | sheet (t : Table String)
deriving Repr

/-- Python's `str.endswith`, embedded on the character list of the string. -/
def pyEndsWith (s suffix : String) : Bool :=
  suffix.data.isSuffixOf s.data

/-- Split at a separator character (`str.split(sep)` in Python terms),
on character lists. -/
def splitSep (sep : Char) : List Char → List (List Char)
  | [] => [[]]
  | c :: cs =>
    if c = sep then [] :: splitSep sep cs
    else
      match splitSep sep cs with
      | [] => [[c]]
      | l :: ls => (c :: l) :: ls

/-- Join pieces with a separator character (`sep.join` in Python terms). -/
def joinSep (sep : Char) : List (List Char) → List Char
  | [] => []
  | [l] => l
  | l :: l' :: ls => l ++ sep :: joinSep sep (l' :: ls)

/-- Split a string at a single-character separator. -/
def pySplit (sep : Char) (s : String) : List String :=
  (splitSep sep s.data).map String.mk

/-- `pd.read_csv(file, sep=sep)` on a text file: split every line at the
separator; the header is the first line.  An empty file raises
(`EmptyDataError`), modelled as an error. -/
def readCsvLines (sep : Char) (lines : List String) : Except String (Table String) :=
  match lines with
  | [] => .error "No columns to parse from file"
  | h :: rest => .ok { header := pySplit sep h, rows := rest.map (pySplit sep) }

/-- The candidate separators tried for a `.txt` file, in source order
(`data_import.py`, `separators = [';', '\t', ',', ' ']`). -/
def candidateSeps : List Char := [';', '\t', ',', ' ']

/-- Does reading with `sep` succeed and yield more than one column?
This is the `len(df.columns) > 1` acceptance test of the separator loop. -/
def goodSep (sep : Char) (lines : List String) : Bool :=
  match readCsvLines sep lines with
  | .ok t => decide (1 < t.header.length)
  | .error _ => false

/-- The separator loop of `import_data` for `.txt` files: try each separator
in order, skip separators that raise or that yield at most one column, and
return the first accepted parse; the `for ... else` clause raises when no
separator is accepted. -/
def findSepLoop (lines : List String) : List Char → Except String (Table String)
  | [] => .error "Could not determine the separator for the .txt file."
  | sep :: rest =>
    match readCsvLines sep lines with
    | .ok t => if 1 < t.header.length then .ok t else findSepLoop lines rest
    | .error _ => findSepLoop lines rest

/-- The `.txt` branch of `import_data`. -/
def detectTxt (lines : List String) : Except String (Table String) :=
  findSepLoop lines candidateSeps

/-- The dispatch of `import_data` before its enclosing `try`: branch on the
file extension; `.csv` reads with the default comma separator, `.xlsx` takes
the first sheet as parsed by the external library, `.txt` runs the separator
loop, and any other extension raises `ValueError`. -/
def importCore (file_path : String) (fd : FileData) : Except String (Table String) :=
  if pyEndsWith file_path ".csv" then
    match fd with
    | .text lines => readCsvLines ',' lines
    | .sheet _ => .error "No columns to parse from file"
  else if pyEndsWith file_path ".xlsx" then
    match fd with
    | .text _ => .error "File is not a zip file"
    | .sheet t => .ok t
  else if pyEndsWith file_path ".txt" then
    match fd with
    | .text lines => detectTxt lines
    | .sheet _ => .error "No columns to parse from file"
  else
    .error "Unsupported file type. Use .txt, .xlsx, or .csv files."

/-- `data_import.import_data`: the dispatch above wrapped by the
`except Exception as e: raise ValueError(f"Error reading file: {str(e)}")`
handler, which re-raises every failure with a uniform prefix. -/
def import_data (file_path : String) (fd : FileData) : Except String (Table String) :=
  match importCore file_path fd with
  | .ok t => .ok t
  | .error e => .error ("Error reading file: " ++ e)

/-- The default name offered for the `i`-th entry (0-based `i`) of the
column-naming dialog: `column_{i+1}` in `assign_column_names`. -/
def defaultColName (i : Nat) : String :=
  "column_" ++ toString (i + 1)

/-- The outcome of the interactive column-naming dialog, seen from the data
flow of `assign_column_names`: `none` models the user closing or cancelling
the dialog (the `confirmed` flag stays false); `some f` models a confirmed
dialog in which entry `i` holds `f i` if the user retyped it and the
prefilled default `column_{i+1}` otherwise. -/
abbrev DialogInput : Type := Option (Nat → Option String)

/-- The final text of entry `i` of a confirmed dialog. -/
def entryText (f : Nat → Option String) (i : Nat) : String :=
  (f i).getD (defaultColName i)

/-- `data_import.assign_column_names`: with headers the table is returned
unchanged; without headers the dialog is shown, cancellation raises, and a
confirmed dialog replaces the column names by the entry texts (after the
source's guard that the number of collected names equals the number of
columns). -/
def assign_column_names (df : Table String) (has_headers : Bool)
    (dialog : DialogInput) : Except String (Table String) :=
  if has_headers then
    .ok df
  else
    match dialog with
    | none => .error "Column name input was cancelled by the user."
    | some f =>
      let num_cols := df.header.length
      let custom_names := (List.range num_cols).map (entryText f)
      if custom_names.length = num_cols then
        .ok { df with header := custom_names }
      else
        .error "Number of column names does not match number of columns."

/-- An arithmetic expression over column names, the parsed form of the
right-hand side of a preprocessing expression string such as
`log10(col1 * 3 + 1)`.  Literals are rational, matching Python numerals. -/
inductive Expr
  | num (q : ℚ)
  | col (name : String)
  | add (a b : Expr)
  | mul (a b : Expr)
  | log10 (a : Expr)

/-- Numeric addition of two cells; adding a string cell raises, as the
underlying vectorised arithmetic does on non-numeric dtypes. -/
def Value.addV : Value → Value → Except String Value
  | .num a, .num b => .ok (.num (a + b))
  | _, _ => .error "unsupported operand type for +"

/-- Numeric multiplication of two cells. -/
def Value.mulV : Value → Value → Except String Value
  | .num a, .num b => .ok (.num (a * b))
  | _, _ => .error "unsupported operand type for *"

/-- Base-10 logarithm of a numeric cell (reals idealise the floats computed
by `log10`; no domain check, as the float version yields `nan`/`-inf`
rather than raising). -/
noncomputable def Value.log10V : Value → Except String Value
  | .num a => .ok (.num (Real.logb 10 a))
  | _ => .error "unsupported operand type for log10"

/-- Row-wise evaluation of an expression in an environment binding column
names to the cells of one row; an unknown column name raises. -/
noncomputable def evalExpr (env : List (String × Value)) : Expr → Except String Value
  | .num q => .ok (.num (q : ℝ))
  | .col name =>
    match env.lookup name with
    | some v => .ok v
    | none => .error ("name " ++ name ++ " is not defined")
  | .add a b => do Value.addV (← evalExpr env a) (← evalExpr env b)
  | .mul a b => do Value.mulV (← evalExpr env a) (← evalExpr env b)
  | .log10 a => do Value.log10V (← evalExpr env a)

/-- Row-wise evaluation of an expression over all rows of a table, keeping
the first error. -/
noncomputable def evalRows (hdr : List String) (e : Expr) :
    List (List Value) → Except String (List Value)
  | [] => .ok []
  | row :: rest => do
    let v ← evalExpr (hdr.zip row) e
    let vs ← evalRows hdr e rest
    return v :: vs

/-- Modelled from the spec: `preprocessing.apply_mathematical_transformation`
(the module is absent from the repository).  "Accepts a table and a string of
the form `new_col = <expression over existing column names and
arithmetic/log functions>`; evaluates it row-wise (or vectorized) and
appends/overwrites the named column."  The expression string is represented
by its parsed form: the target column name and the expression tree.  Every
row is evaluated; any evaluation error fails the whole transformation, and
on success the target column is appended (or overwritten in place when a
column of that name exists). -/
noncomputable def apply_mathematical_transformation (t : Table Value)
    (target : String) (e : Expr) : Except String (Table Value) := do
  let vals ← evalRows t.header e t.rows
  if target ∈ t.header then
    let idx := t.header.indexOf target
    return { header := t.header,
             rows := (t.rows.zip vals).map (fun p => p.1.set idx p.2) }
  else
    return { header := t.header ++ [target],
             rows := (t.rows.zip vals).map (fun p => p.1 ++ [p.2]) }

/-- Modelled from the spec: the fitted model returned by
`modeling.train_model` (the module is absent from the repository).  The spec
treats it as "an opaque fitted estimator object"; the embedding records the
training configuration it was fitted with. -/
structure Model where
  tag : String
  inputs : List String
  output : String
deriving DecidableEq

/-- Modelled from the spec: the fixed enumerated set of model-type tags of
`modeling.train_model` — "(linear, svm, tree, nn, knn, random-forest,
gradient-boosting, xgboost)". -/
def validModelTags : List String :=
  ["linear", "svm", "tree", "nn", "knn", "random-forest", "gradient-boosting", "xgboost"]

/-- The model-type values offered by the Modeling tab's combobox
(`gui.create_modeling_tab`). -/
def modelComboboxValues : List String :=
  ["linear", "svm", "tree", "nn", "knn", "rf", "gb", "xgboost"]

/-- Modelled from the spec: `modeling.train_model` (the module is absent
from the repository).  "Splits/fits via the corresponding library estimator
... returns the fitted model plus a metrics summary"; "Unknown model-type
tags fail with an error."  The metrics summary is abstracted to a string. -/
def train_model (_t : Table Value) (input_cols : List String)
    (output_col : String) (model_type : String) : Except String (Model × String) :=
  if model_type ∈ validModelTags then
    .ok ({ tag := model_type, inputs := input_cols, output := output_col },
         "r2=.., rmse=..")
  else
    .error ("Unknown model type: " ++ model_type)

/-- The mutable state owned by the GUI shell (`MainGUI`): the current table
(`self.data`), the trained model (`self.model`), the method configuration
(`self.config`) and the text of the status label (`self.message_label`). -/
structure ShellState where
  data : Option (Table Value)
  model : Option Model
  config : List (String × String)
  message : String

/-- A table of freshly parsed string cells, as stored into `self.data`. -/
def toValueTable (t : Table String) : Table Value :=
  { header := t.header, rows := t.rows.map (fun r => r.map Value.str) }

/-- The shape string `f"{self.data.shape}"` of the success message. -/
def shapeStr (t : Table String) : String :=
  "(" ++ toString t.rows.length ++ ", " ++ toString t.header.length ++ ")"

/-- `MainGUI.import_data`: the user picks a path (`none` models dismissing
the file chooser, in which case nothing happens); the whole import runs
inside `try/except`, so every failure is caught and reported in the status
label.  Note the source assigns `self.data = import_data(file_path)` before
renaming columns, so a cancelled naming dialog still leaves the freshly
imported table stored.  The second component of the result is an exception
escaping the callback: for this action it is always `none`. -/
def importAction (st : ShellState) (file_path : Option String) (fd : FileData)
    (has_headers : Bool) (dialog : DialogInput) : ShellState × Option String :=
  match file_path with
  | none => (st, none)
  | some path =>
    match import_data path fd with
    | .error e => ({ st with message := "Error importing data: " ++ e }, none)
    | .ok t =>
      match assign_column_names t has_headers dialog with
      | .error e =>
        ({ st with data := some (toValueTable t),
                   message := "Error importing data: " ++ e }, none)
      | .ok t' =>
        ({ st with data := some (toValueTable t'),
                   message := "Data imported successfully: " ++ shapeStr t' }, none)

/-- `MainGUI.apply_transformation`: guards for loaded data and a non-empty
expression entry set the status label and return; otherwise the adapter is
called with NO `try/except`, so a failing transformation escapes the
callback uncaught (second component `some e`) and no field of the state is
mutated — the assignment `self.data = ...` never executes.  The entry text
is carried in parsed form (`none` models an empty entry). -/
noncomputable def applyTransformation (st : ShellState)
    (entry : Option (String × Expr)) : ShellState × Option String :=
  match st.data with
  | none => ({ st with message := "No data loaded" }, none)
  | some t =>
    match entry with
    | none => ({ st with message := "Please enter a valid expression" }, none)
    | some (target, e) =>
      match apply_mathematical_transformation t target e with
      | .error err => (st, some err)
      | .ok t' =>
        ({ st with data := some t',
                   message := "Transformation applied: " ++ target }, none)

/-- `MainGUI.train_model`: with no data loaded the status label is set;
otherwise the input columns are every column but the last and the output
column is the last column (`columns[:-1]` / `columns[-1]`); the user
supplies only the model tag.  `columns[-1]` on a table with no columns
raises `IndexError`, and an unknown tag makes the adapter raise; there is no
`try/except`, so either exception escapes the callback uncaught and the
assignment `self.model, metrics = ...` never executes. -/
def trainAction (st : ShellState) (model_type : String) : ShellState × Option String :=
  match st.data with
  | none => ({ st with message := "No data loaded" }, none)
  | some t =>
    match t.header.getLast? with
    | none => (st, some "IndexError: single positional indexer is out-of-bounds")
    | some output_col =>
      match train_model t t.header.dropLast output_col model_type with
      | .error e => (st, some e)
      | .ok (m, metrics) =>
        ({ st with model := some m,
                   message := "Model trained with metrics: " ++ metrics }, none)

/-- `MainGUI.perform_shap`: the guard `if self.model and self.data is not
None` sets the status label and leaves everything else untouched when no
model (or no data) is available; otherwise the analysis adapter redraws the
plot and the label reports completion.  The plot surface is not part of the
embedded state; the claims concern the table and the guard. -/
def performShap (st : ShellState) : ShellState × Option String :=
  match st.model, st.data with
  | some _, some _ => ({ st with message := "SHAP analysis completed" }, none)
  | _, _ => ({ st with message := "No model or data available" }, none)

/-- Escaping of one character of a key or value for the structured-text
configuration format: the escape character and the two structural
characters (entry separator, key/value separator) are escaped. -/
def escapeChar (c : Char) : List Char :=
  if c = '\\' then ['\\', '\\']
  else if c = '\n' then ['\\', 'n']
  else if c = '\t' then ['\\', 't']
  else [c]

/-- Escaping of a whole key or value. -/
def escField : List Char → List Char
  | [] => []
  | c :: cs => escapeChar c ++ escField cs

/-- Unescaping, the inverse of `escField`; malformed escapes fail. -/
def unescField : List Char → Option (List Char)
  | [] => some []
  | c :: cs =>
    if c = '\\' then
      match cs with
      | [] => none
      | d :: cs' =>
        if d = '\\' then (unescField cs').map (fun r => '\\' :: r)
        else if d = 'n' then (unescField cs').map (fun r => '\n' :: r)
        else if d = 't' then (unescField cs').map (fun r => '\t' :: r)
        else none
    else (unescField cs).map (fun r => c :: r)

/-- One serialized configuration entry: escaped key, tab, escaped value. -/
def encodeEntry (kv : List Char × List Char) : List Char :=
  escField kv.1 ++ '\t' :: escField kv.2

/-- Parse one serialized configuration entry. -/
def decodeEntry (l : List Char) : Option (List Char × List Char) :=
  match splitSep '\t' l with
  | [k, v] =>
    match unescField k, unescField v with
    | some k', some v' => some (k', v')
    | _, _ => none
  | _ => none

/-- Parse every line of a method file; any malformed line fails the whole
parse. -/
def decodeLines : List (List Char) → Option (List (List Char × List Char))
  | [] => some []
  | l :: ls =>
    match decodeEntry l, decodeLines ls with
    | some p, some ps => some (p :: ps)
    | _, _ => none

/-- A configuration mapping: flat setting-name-to-value pairs. -/
def Config : Type := List (String × String)

/-- Modelled from the spec: `method_storage.save_method` (the module is
absent from the repository).  "Save: writes the current configuration
mapping as structured text to a chosen path."  The structured text is one
line per entry, key and value separated by a tab and escaped so the format
is unambiguous; the result is the file's content. -/
def save_method (cfg : Config) : String :=
  String.mk (joinSep '\n' (cfg.map (fun kv => encodeEntry (kv.1.data, kv.2.data))))

/-- Modelled from the spec: `method_storage.load_method` (the module is
absent from the repository).  "Load: reads structured text back into a
configuration mapping. ... a malformed file fails the load."  The argument
is the file's content. -/
def load_method (s : String) : Except String Config :=
  if s.data = [] then .ok []
  else
    match decodeLines (splitSep '\n' s.data) with
    | some entries => .ok (entries.map (fun kv => (String.mk kv.1, String.mk kv.2)))
    | none => .error "Malformed method file"

/-- The table of the spec's transformation test case: a single column
`col1` holding 9 and 99. -/
noncomputable def c9Table : Table Value :=
  { header := ["col1"], rows := [[.num 9], [.num 99]] }

/-- The parsed form of the spec's transformation expression
`log10(col1 * 3 + 1)`. -/
def c9ExprRhs : Expr :=
  .log10 (.add (.mul (.col "col1") (.num 3)) (.num 1))

/-- Two incompatible suffixes cannot both be suffixes of the same string:
used to show the extension branches of `import_data` are mutually
exclusive. -/
theorem pyEndsWith_excl {s p q : String} (hp : pyEndsWith s p = true)
    (h1 : ¬ p.data <:+ q.data) (h2 : ¬ q.data <:+ p.data) :
    pyEndsWith s q = false := by
  have hp' : p.data <:+ s.data := by
    have h := hp
    unfold pyEndsWith at h
    exact List.isSuffixOf_iff_suffix.mp h
  cases hqv : pyEndsWith s q with
  | false => rfl
  | true =>
    have hq' : q.data <:+ s.data := by
      unfold pyEndsWith at hqv
      exact List.isSuffixOf_iff_suffix.mp hqv
    rcases List.suffix_or_suffix_of_suffix hp' hq' with h | h
    · exact absurd h h1
    · exact absurd h h2

/-- The separator loop returns the parse of the first separator accepted by
the more-than-one-column test, and raises when no separator is accepted. -/
theorem findSepLoop_eq_find (lines : List String) (seps : List Char) :
    findSepLoop lines seps =
      match seps.find? (fun s => goodSep s lines) with
      | some sep => readCsvLines sep lines
      | none => .error "Could not determine the separator for the .txt file." := by
  induction seps with
  | nil => rfl
  | cons sep rest ih =>
    cases hr : readCsvLines sep lines with
    | ok t =>
      by_cases hlen : 1 < t.header.length
      · have hg : goodSep sep lines = true := by simp [goodSep, hr, hlen]
        simp [findSepLoop, hr, hlen, List.find?, hg]
      · have hg : goodSep sep lines = false := by simp [goodSep, hr, hlen]
        simp [findSepLoop, hr, hlen, List.find?, hg, ih]
    | error e =>
      have hg : goodSep sep lines = false := by simp [goodSep, hr]
      simp [findSepLoop, hr, List.find?, hg, ih]

/-- C1: For every import of a file whose path ends in `.txt`, the importer
tries the candidate delimiters `;`, tab, `,`, space in that order and
returns the table parsed with the first delimiter that yields more than one
column (`List.find?` returns the first list element satisfying the test);
if no candidate delimiter yields more than one column, the import fails
with the delimiter-detection error. -/
theorem c1_txt_delimiter_detection (file_path : String) (lines : List String)
    (htxt : pyEndsWith file_path ".txt" = true) :
    (∀ sep, candidateSeps.find? (fun s => goodSep s lines) = some sep →
        import_data file_path (.text lines) = readCsvLines sep lines)
    ∧ (candidateSeps.find? (fun s => goodSep s lines) = none →
        import_data file_path (.text lines) =
          .error "Error reading file: Could not determine the separator for the .txt file.") := by
  have hcsv : pyEndsWith file_path ".csv" = false :=
    pyEndsWith_excl htxt (by decide) (by decide)
  have hxlsx : pyEndsWith file_path ".xlsx" = false :=
    pyEndsWith_excl htxt (by decide) (by decide)
  have hcore : importCore file_path (.text lines) = detectTxt lines := by
    simp [importCore, hcsv, hxlsx, htxt]
  constructor
  · intro sep hfind
    have hgood := List.find?_some hfind
    have : ∃ t, readCsvLines sep lines = .ok t := by
      unfold goodSep at hgood
      cases hr : readCsvLines sep lines with
      | ok t => exact ⟨t, rfl⟩
      | error e => rw [hr] at hgood; simp at hgood
    rcases this with ⟨t, ht⟩
    unfold import_data
    rw [hcore, detectTxt, findSepLoop_eq_find, hfind]
    simp [ht]
  · intro hfind
    unfold import_data
    rw [hcore, detectTxt, findSepLoop_eq_find, hfind]
    rfl

/-- Witness for C1 at concrete inputs: a two-column semicolon file is parsed
with `;` (the first accepted delimiter), and a delimiter-free single-column
file fails with the delimiter-detection error. -/
theorem c1_witness :
    import_data "measurements.txt" (.text ["a;b", "1;2"]) =
      .ok { header := ["a", "b"], rows := [["1", "2"]] }
    ∧ import_data "measurements.txt" (.text ["onlyonecolumn", "42"]) =
      .error "Error reading file: Could not determine the separator for the .txt file." := by
  constructor
  · have h := (c1_txt_delimiter_detection "measurements.txt" ["a;b", "1;2"] (by decide)).1
      ';' (by decide)
    rw [h]; rfl
  · exact (c1_txt_delimiter_detection "measurements.txt" ["onlyonecolumn", "42"]
      (by decide)).2 (by decide)

/-- C8: For every file path whose extension is not `.csv`, `.xlsx`, or
`.txt`, the importer fails with an error (it raises rather than returning a
table), whatever the file's content. -/
theorem c8_unsupported_extension (file_path : String) (fd : FileData)
    (hcsv : pyEndsWith file_path ".csv" = false)
    (hxlsx : pyEndsWith file_path ".xlsx" = false)
    (htxt : pyEndsWith file_path ".txt" = false) :
    import_data file_path fd =
      .error "Error reading file: Unsupported file type. Use .txt, .xlsx, or .csv files." := by
  unfold import_data importCore
  rw [hcsv, hxlsx, htxt]
  rfl

/-- Witness for C8 at a concrete input: a `.pdf` path is rejected. -/
theorem c8_witness :
    import_data "report.pdf" (.text ["a;b"]) =
      .error "Error reading file: Unsupported file type. Use .txt, .xlsx, or .csv files." :=
  c8_unsupported_extension "report.pdf" (.text ["a;b"]) (by decide) (by decide) (by decide)

/-- C6: When the caller indicates the imported source has no header row,
the dialog of `assign_column_names` collects one name per column with
default name `column_{i+1}` for the (0-based) `i`-th column; cancelling the
dialog fails the operation with an error, and confirming assigns exactly
the entered entry texts to the table's columns, in order, one per column,
leaving the rows unchanged. -/
theorem c6_no_header_dialog (df : Table String) :
    (assign_column_names df false none =
        .error "Column name input was cancelled by the user.")
    ∧ (∀ f, assign_column_names df false (some f) =
        .ok { header := (List.range df.header.length).map (entryText f),
              rows := df.rows })
    ∧ (∀ f i, f i = none → entryText f i = "column_" ++ toString (i + 1)) := by
  refine ⟨rfl, fun f => ?_, fun f i h => ?_⟩
  · simp [assign_column_names]
  · simp [entryText, h, defaultColName]

/-- Witness for C6 at concrete inputs: cancelling fails; confirming a
dialog in which the first entry was retyped to `x` and the second left at
its default assigns exactly `["x", "column_2"]`; an untouched first entry
holds `column_1`. -/
theorem c6_witness :
    assign_column_names ⟨["a", "b"], [["1", "2"]]⟩ false none =
      .error "Column name input was cancelled by the user."
    ∧ assign_column_names ⟨["a", "b"], [["1", "2"]]⟩ false
        (some fun i => if i = 0 then some "x" else none) =
      .ok ⟨["x", "column_2"], [["1", "2"]]⟩
    ∧ entryText (fun _ => none) 0 = "column_1" := by
  refine ⟨(c6_no_header_dialog ⟨["a", "b"], [["1", "2"]]⟩).1, ?_, ?_⟩
  · rw [(c6_no_header_dialog ⟨["a", "b"], [["1", "2"]]⟩).2.1
      (fun i => if i = 0 then some "x" else none)]
    rfl
  · exact (c6_no_header_dialog ⟨["a", "b"], [["1", "2"]]⟩).2.2 (fun _ => none) 0 rfl

/-- C2: Training accepts a model-type tag only from the fixed enumerated
set; for every tag outside this set (with a table loaded), the training
action fails — the exception escapes the callback — and the whole shell
state, in particular the previously stored model, is left unchanged. -/
theorem c2_unknown_tag_rejected (st : ShellState) (t : Table Value)
    (model_type : String) (hdata : st.data = some t)
    (htag : model_type ∉ validModelTags) :
    (trainAction st model_type).1 = st ∧
    (trainAction st model_type).2.isSome = true := by
  cases hlast : t.header.getLast? with
  | none => simp [trainAction, hdata, hlast]
  | some out =>
    have hfail : train_model t t.header.dropLast out model_type =
        .error ("Unknown model type: " ++ model_type) := by
      unfold train_model
      rw [if_neg htag]
    simp [trainAction, hdata, hlast, hfail]

/-- Witness for C2 at a concrete input: the tag `ridge` is outside the
enumerated set and leaves the state untouched while raising. -/
theorem c2_witness :
    (trainAction ⟨some ⟨["x", "y"], []⟩, none, [], "ready"⟩ "ridge").1 =
      ⟨some ⟨["x", "y"], []⟩, none, [], "ready"⟩ ∧
    (trainAction ⟨some ⟨["x", "y"], []⟩, none, [], "ready"⟩ "ridge").2.isSome = true :=
  c2_unknown_tag_rejected ⟨some ⟨["x", "y"], []⟩, none, [], "ready"⟩
    ⟨["x", "y"], []⟩ "ridge" rfl (by decide)

/-- C10: For every loaded table (with at least one column), the shell's
training action uses every column except the last as the input columns and
the last column as the output column; the action takes no column choice
from the user — its only user-supplied argument is the model tag. -/
theorem c10_train_uses_fixed_columns (st : ShellState) (t : Table Value)
    (model_type : String) (out : String) (hdata : st.data = some t)
    (hlast : t.header.getLast? = some out) (htag : model_type ∈ validModelTags) :
    (trainAction st model_type).1.model =
      some { tag := model_type, inputs := t.header.dropLast, output := out } ∧
    (trainAction st model_type).2 = none := by
  simp [trainAction, hdata, hlast, train_model, htag]

/-- Witness for C10 at a concrete input: training `linear` on a three-column
table records the first two columns as inputs and the third as output. -/
theorem c10_witness :
    (trainAction ⟨some ⟨["a", "b", "c"], []⟩, none, [], ""⟩ "linear").1.model =
      some { tag := "linear", inputs := ["a", "b"], output := "c" } ∧
    (trainAction ⟨some ⟨["a", "b", "c"], []⟩, none, [], ""⟩ "linear").2 = none :=
  c10_train_uses_fixed_columns ⟨some ⟨["a", "b", "c"], []⟩, none, [], ""⟩
    ⟨["a", "b", "c"], []⟩ "linear" "c" rfl rfl (by decide)

/-- C4: Invoking post-analysis when no model has been trained fails with the
precondition message in the status label, does not alter the table, and does
not raise out of the callback. -/
theorem c4_shap_requires_model (st : ShellState) (hmodel : st.model = none) :
    (performShap st).1.data = st.data ∧
    (performShap st).1.message = "No model or data available" ∧
    (performShap st).2 = none := by
  unfold performShap
  rw [hmodel]
  cases st.data <;> simp

/-- Witness for C4 at a concrete input. -/
theorem c4_witness :
    (performShap ⟨some ⟨["a"], [[.str "1"]]⟩, none, [], "ready"⟩).1.data =
      some ⟨["a"], [[Value.str "1"]]⟩ ∧
    (performShap ⟨some ⟨["a"], [[.str "1"]]⟩, none, [], "ready"⟩).1.message =
      "No model or data available" ∧
    (performShap ⟨some ⟨["a"], [[.str "1"]]⟩, none, [], "ready"⟩).2 = none :=
  c4_shap_requires_model ⟨some ⟨["a"], [[.str "1"]]⟩, none, [], "ready"⟩ rfl

/-- C3: For every transformation request that fails (an evaluation error in
the transformation expression), the shell's stored table — indeed the whole
shell state — is left in its last successful state: the state after the
failed action equals the state before it, and the error escapes the
callback. -/
theorem c3_failed_transformation_preserves_table (st : ShellState)
    (t : Table Value) (target : String) (e : Expr) (err : String)
    (hdata : st.data = some t)
    (hfail : apply_mathematical_transformation t target e = .error err) :
    (applyTransformation st (some (target, e))).1 = st ∧
    (applyTransformation st (some (target, e))).2 = some err := by
  unfold applyTransformation
  rw [hdata]
  simp [hfail]

/-- Witness for C3 at a concrete input: an expression naming a missing
column fails the evaluation and the state is unchanged. -/
theorem c3_witness :
    (applyTransformation ⟨some ⟨["col1"], [[.str "v"]]⟩, none, [], "ready"⟩
        (some ("new", .col "missing"))).1 =
      ⟨some ⟨["col1"], [[.str "v"]]⟩, none, [], "ready"⟩ ∧
    (applyTransformation ⟨some ⟨["col1"], [[.str "v"]]⟩, none, [], "ready"⟩
        (some ("new", .col "missing"))).2 = some "name missing is not defined" :=
  c3_failed_transformation_preserves_table
    ⟨some ⟨["col1"], [[.str "v"]]⟩, none, [], "ready"⟩
    ⟨["col1"], [[.str "v"]]⟩ "new" (.col "missing")
    "name missing is not defined" rfl rfl

/-- C7 counterexample: not every user action catches its errors and reports
them in the status label.  At this concrete state — a loaded table and the
status label reading `ready` — a transformation whose expression names a
missing column raises; the error escapes the `apply_transformation`
callback uncaught (there is no `try/except` in that handler) and the status
label is NOT updated with any message. -/
theorem c7_counterexample :
    (applyTransformation ⟨some ⟨["col1"], [[.str "v"]]⟩, none, [], "ready"⟩
        (some ("new", .col "missing"))).2 = some "name missing is not defined"
    ∧ (applyTransformation ⟨some ⟨["col1"], [[.str "v"]]⟩, none, [], "ready"⟩
        (some ("new", .col "missing"))).1.message = "ready" := by
  exact ⟨rfl, rfl⟩

/-- C7 amended: only the import action catches errors at the point of the
action and reports them as a short message in the status label (and never
raises out of its callback); an error raised inside the transformation
adapter escapes the `apply_transformation` callback uncaught, leaving the
entire shell state — status label included — unchanged (the surrounding
toolkit, outside this repository, is what keeps the application running). -/
theorem c7_amended_error_reporting (st : ShellState) :
    (∀ file_path fd has_headers dialog,
        (importAction st file_path fd has_headers dialog).2 = none)
    ∧ (∀ path fd has_headers dialog e, import_data path fd = .error e →
        (importAction st (some path) fd has_headers dialog).1.message =
          "Error importing data: " ++ e)
    ∧ (∀ t target e err, st.data = some t →
        apply_mathematical_transformation t target e = .error err →
        (applyTransformation st (some (target, e))).1 = st ∧
        (applyTransformation st (some (target, e))).2 = some err) := by
  refine ⟨fun file_path fd has_headers dialog => ?_,
          fun path fd has_headers dialog e himp => ?_,
          fun t target e err hdata hfail => ?_⟩
  · cases file_path with
    | none => rfl
    | some path =>
      cases himp : import_data path fd with
      | ok t =>
        cases hassign : assign_column_names t has_headers dialog with
        | ok t' => simp [importAction, himp, hassign]
        | error e => simp [importAction, himp, hassign]
      | error e => simp [importAction, himp]
  · simp [importAction, himp]
  · rw [applyTransformation]
    simp [hdata, hfail]

/-- Witness for C7's amended claim at concrete inputs: an unsupported file
extension is caught and reported by the import action, while a failing
transformation escapes its action with the state intact. -/
theorem c7_amended_witness :
    (importAction ⟨none, none, [], ""⟩ (some "report.pdf") (.text []) true none).1.message =
      "Error importing data: Error reading file: Unsupported file type. Use .txt, .xlsx, or .csv files."
    ∧ (applyTransformation ⟨some ⟨["col1"], [[.str "v"]]⟩, none, [], "ready"⟩
        (some ("new", .col "missing"))).2 = some "name missing is not defined" := by
  constructor
  · exact (c7_amended_error_reporting ⟨none, none, [], ""⟩).2.1 "report.pdf" (.text [])
      true none "Error reading file: Unsupported file type. Use .txt, .xlsx, or .csv files." (by rfl)
  · exact ((c7_amended_error_reporting ⟨some ⟨["col1"], [[.str "v"]]⟩, none, [], "ready"⟩).2.2
      ⟨["col1"], [[.str "v"]]⟩ "new" (.col "missing") "name missing is not defined" rfl rfl).2

/-- Upper bound on a base-10 logarithm from a natural-number power
comparison. -/
theorem logb_lt_div {x : ℝ} (n m : ℕ) (hn : 0 < n) (hx : 0 < x)
    (h : x ^ n < 10 ^ m) : Real.logb 10 x < (m : ℝ) / (n : ℝ) := by
  have h10 : (1 : ℝ) < 10 := by norm_num
  have hp : (0 : ℝ) < x ^ n := pow_pos hx n
  have key : Real.logb 10 (x ^ n) < ((m : ℕ) : ℝ) := by
    rw [Real.logb_lt_iff_lt_rpow h10 hp, Real.rpow_natCast]
    exact h
  rw [Real.logb_pow] at key
  rw [lt_div_iff₀ (by exact_mod_cast hn)]
  linarith

/-- Lower bound on a base-10 logarithm from a natural-number power
comparison. -/
theorem div_lt_logb {x : ℝ} (n m : ℕ) (hn : 0 < n) (hx : 0 < x)
    (h : 10 ^ m < x ^ n) : (m : ℝ) / (n : ℝ) < Real.logb 10 x := by
  have h10 : (1 : ℝ) < 10 := by norm_num
  have hp : (0 : ℝ) < x ^ n := pow_pos hx n
  have key : ((m : ℕ) : ℝ) < Real.logb 10 (x ^ n) := by
    rw [Real.lt_logb_iff_rpow_lt h10 hp, Real.rpow_natCast]
    exact h
  rw [Real.logb_pow] at key
  rw [div_lt_iff₀ (by exact_mod_cast hn)]
  linarith

/-- Evaluation of the spec's transformation test case: the new column holds
`log10(9 * 3 + 1) = log10 28` and `log10(99 * 3 + 1) = log10 298`, the
existing column is unchanged. -/
theorem c9_eval :
    apply_mathematical_transformation c9Table "new_col" c9ExprRhs =
      .ok { header := ["col1", "new_col"],
            rows := [[.num 9, .num (Real.logb 10 28)],
                     [.num 99, .num (Real.logb 10 298)]] } := by
  simp [apply_mathematical_transformation, c9Table, c9ExprRhs, evalExpr,
        evalRows, Value.mulV, Value.addV, Value.log10V, bind, Except.bind, pure,
        Except.pure]
  norm_num

/-- C9 counterexample: the transformation `new_col = log10(col1 * 3 + 1)`
on `col1 = [9, 99]` does NOT produce a first value approximately `1.477`:
the value actually computed is `log10 28 ≈ 1.4472`, more than `0.02` away
from `1.477` (the spec's stated values `[1.477, 2.477]` are those of
`log10 30` and `log10 300`, not of this expression). -/
theorem c9_counterexample :
    apply_mathematical_transformation c9Table "new_col" c9ExprRhs =
      .ok { header := ["col1", "new_col"],
            rows := [[.num 9, .num (Real.logb 10 28)],
                     [.num 99, .num (Real.logb 10 298)]] }
    ∧ 1 / 50 < |Real.logb 10 28 - 1477 / 1000| := by
  refine ⟨c9_eval, ?_⟩
  have hub : Real.logb 10 28 < 29 / 20 :=
    logb_lt_div 20 29 (by norm_num) (by norm_num) (by norm_num)
  rw [abs_of_neg (by linarith : Real.logb 10 28 - 1477 / 1000 < 0)]
  linarith

/-- C9 amended: applying the transformation `new_col = log10(col1 * 3 + 1)`
to the table with column `col1 = [9, 99]` adds a column `new_col` whose
values are `log10 28` and `log10 298`, approximately `[1.447, 2.474]`
(within `0.01`), and leaves the existing column unchanged. -/
theorem c9_amended_log_values :
    apply_mathematical_transformation c9Table "new_col" c9ExprRhs =
      .ok { header := ["col1", "new_col"],
            rows := [[.num 9, .num (Real.logb 10 28)],
                     [.num 99, .num (Real.logb 10 298)]] }
    ∧ |Real.logb 10 28 - 1447 / 1000| < 1 / 100
    ∧ |Real.logb 10 298 - 2474 / 1000| < 1 / 100 := by
  refine ⟨c9_eval, ?_, ?_⟩
  · have hub : Real.logb 10 28 < 29 / 20 :=
      logb_lt_div 20 29 (by norm_num) (by norm_num) (by norm_num)
    have hlb : 23 / 16 < Real.logb 10 28 :=
      div_lt_logb 16 23 (by norm_num) (by norm_num) (by norm_num)
    rw [abs_lt]
    constructor <;> linarith
  · have hub : Real.logb 10 298 < 62 / 25 :=
      logb_lt_div 25 62 (by norm_num) (by norm_num) (by norm_num)
    have hlb : 79 / 32 < Real.logb 10 298 :=
      div_lt_logb 32 79 (by norm_num) (by norm_num) (by norm_num)
    rw [abs_lt]
    constructor <;> linarith

/-- Characters produced by escaping are never the structural characters. -/
theorem mem_escapeChar {c d : Char} (h : c ∈ escapeChar d) :
    c ≠ '\n' ∧ c ≠ '\t' := by
  unfold escapeChar at h
  by_cases h1 : d = '\\'
  · simp [h1] at h
    subst h
    exact ⟨by decide, by decide⟩
  · by_cases h2 : d = '\n'
    · simp [h1, h2] at h
      rcases h with h | h <;> subst h <;> exact ⟨by decide, by decide⟩
    · by_cases h3 : d = '\t'
      · simp [h1, h2, h3] at h
        rcases h with h | h <;> subst h <;> exact ⟨by decide, by decide⟩
      · simp [h1, h2, h3] at h
        subst h
        exact ⟨h2, h3⟩

/-- Characters of an escaped field are never the structural characters. -/
theorem mem_escField {c : Char} {cs : List Char} (h : c ∈ escField cs) :
    c ≠ '\n' ∧ c ≠ '\t' := by
  induction cs with
  | nil => simp [escField] at h
  | cons d cs ih =>
    rw [escField] at h
    rcases List.mem_append.mp h with h | h
    · exact mem_escapeChar h
    · exact ih h

/-- Unescaping a non-escape character is a plain cons. -/
theorem unescField_cons_of_ne {c : Char} (h : ¬c = '\\') (cs : List Char) :
    unescField (c :: cs) = (unescField cs).map (fun r => c :: r) := by
  rw [unescField.eq_def]
  simp [h]

/-- Unescaping an escaped backslash. -/
theorem unescField_backslash (cs : List Char) :
    unescField ('\\' :: '\\' :: cs) = (unescField cs).map (fun r => '\\' :: r) := by
  rw [unescField]
  simp

/-- Unescaping an escaped line separator. -/
theorem unescField_newline (cs : List Char) :
    unescField ('\\' :: 'n' :: cs) = (unescField cs).map (fun r => '\n' :: r) := by
  rw [unescField]
  simp

/-- Unescaping an escaped tab separator. -/
theorem unescField_tab (cs : List Char) :
    unescField ('\\' :: 't' :: cs) = (unescField cs).map (fun r => '\t' :: r) := by
  rw [unescField]
  simp

/-- Unescaping inverts escaping. -/
theorem unescField_escField (cs : List Char) :
    unescField (escField cs) = some cs := by
  induction cs with
  | nil => rfl
  | cons c cs ih =>
    rw [escField]
    by_cases h1 : c = '\\'
    · subst h1
      rw [show escapeChar '\\' = ['\\', '\\'] from rfl, List.cons_append,
        List.cons_append, List.nil_append, unescField_backslash, ih]
      rfl
    · by_cases h2 : c = '\n'
      · subst h2
        rw [show escapeChar '\n' = ['\\', 'n'] from rfl, List.cons_append,
          List.cons_append, List.nil_append, unescField_newline, ih]
        rfl
      · by_cases h3 : c = '\t'
        · subst h3
          rw [show escapeChar '\t' = ['\\', 't'] from rfl, List.cons_append,
            List.cons_append, List.nil_append, unescField_tab, ih]
          rfl
        · rw [show escapeChar c = [c] from by simp [escapeChar, h1, h2, h3],
            List.cons_append, List.nil_append, unescField_cons_of_ne h1, ih]
          rfl

/-- Splitting a separator-free piece returns just that piece. -/
theorem splitSep_not_mem {sep : Char} {l : List Char} (h : sep ∉ l) :
    splitSep sep l = [l] := by
  induction l with
  | nil => rfl
  | cons c cs ih =>
    have hc : ¬c = sep := fun hc => h (hc ▸ List.mem_cons_self c cs)
    have hcs : sep ∉ cs := fun hm => h (List.mem_cons_of_mem c hm)
    rw [splitSep]
    simp [hc, ih hcs]

/-- Splitting after a separator-free prefix peels off that prefix. -/
theorem splitSep_append {sep : Char} {l rest : List Char} (h : sep ∉ l) :
    splitSep sep (l ++ sep :: rest) = l :: splitSep sep rest := by
  induction l with
  | nil => simp [splitSep]
  | cons c cs ih =>
    have hc : ¬c = sep := fun hc => h (hc ▸ List.mem_cons_self c cs)
    have hcs : sep ∉ cs := fun hm => h (List.mem_cons_of_mem c hm)
    rw [List.cons_append, splitSep]
    simp [hc, ih hcs]

/-- Splitting inverts joining when no piece contains the separator. -/
theorem splitSep_joinSep {sep : Char} :
    ∀ ls : List (List Char), ls ≠ [] → (∀ l ∈ ls, sep ∉ l) →
      splitSep sep (joinSep sep ls) = ls
  | [], h, _ => absurd rfl h
  | [l], _, hmem => by
    rw [joinSep]
    exact splitSep_not_mem (hmem l (List.mem_singleton_self l))
  | l :: l' :: ls, _, hmem => by
    rw [joinSep, splitSep_append (hmem l (List.mem_cons_self l _))]
    rw [splitSep_joinSep (l' :: ls) (by simp)
      (fun x hx => hmem x (List.mem_cons_of_mem l hx))]

/-- Decoding inverts encoding for one configuration entry. -/
theorem decodeEntry_encodeEntry (k v : List Char) :
    decodeEntry (encodeEntry (k, v)) = some (k, v) := by
  unfold decodeEntry encodeEntry
  rw [splitSep_append (fun hm => absurd rfl (mem_escField hm).2)]
  rw [splitSep_not_mem (fun hm => absurd rfl (mem_escField hm).2)]
  simp [unescField_escField]

/-- An encoded entry is never empty (it contains the tab separator). -/
theorem encodeEntry_ne_nil (kv : List Char × List Char) :
    encodeEntry kv ≠ [] := by
  unfold encodeEntry
  simp

/-- Joining a nonempty list of nonempty pieces is nonempty. -/
theorem joinSep_ne_nil {sep : Char} :
    ∀ ls : List (List Char), ls ≠ [] → (∀ l ∈ ls, l ≠ []) →
      joinSep sep ls ≠ []
  | [], h, _ => absurd rfl h
  | [l], _, hmem => by
    rw [joinSep]
    exact hmem l (List.mem_singleton_self l)
  | l :: l' :: ls, _, hmem => by
    rw [joinSep]
    intro hnil
    rcases List.append_eq_nil.mp hnil with ⟨_, h2⟩
    exact List.cons_ne_nil _ _ h2

/-- No encoded entry contains the line separator. -/
theorem newline_not_mem_encodeEntry (kv : List Char × List Char) :
    '\n' ∉ encodeEntry kv := by
  unfold encodeEntry
  intro hm
  rcases List.mem_append.mp hm with h | h
  · exact absurd rfl (mem_escField h).1
  · rcases List.mem_cons.mp h with h | h
    · exact absurd h (by decide)
    · exact absurd rfl (mem_escField h).1

/-- Decoding the encoded lines of a configuration recovers its raw pairs. -/
theorem decodeLines_map (ps : List (List Char × List Char)) :
    decodeLines (ps.map encodeEntry) = some ps := by
  induction ps with
  | nil => rfl
  | cons p ps ih =>
    cases p with
    | mk k v =>
      rw [List.map_cons, decodeLines, decodeEntry_encodeEntry k v, ih]

/-- C5: For every configuration mapping, saving it with the method store and
loading the result back yields a mapping equal to the original. -/
theorem c5_save_load_round_trip (cfg : Config) :
    load_method (save_method cfg) = .ok cfg := by
  cases cfg with
  | nil => rfl
  | cons kv cfg' =>
    unfold save_method load_method
    have hdata : (String.mk (joinSep '\n'
        ((kv :: cfg').map (fun p => encodeEntry (p.1.data, p.2.data))))).data =
        joinSep '\n' ((kv :: cfg').map (fun p => encodeEntry (p.1.data, p.2.data))) := rfl
    rw [hdata]
    have hlines : ∀ l ∈ (kv :: cfg').map (fun p => encodeEntry (p.1.data, p.2.data)),
        '\n' ∉ l := by
      intro l hl
      rcases List.mem_map.mp hl with ⟨p, _, hpl⟩
      exact hpl ▸ newline_not_mem_encodeEntry _
    have hnonempty : joinSep '\n'
        ((kv :: cfg').map (fun p => encodeEntry (p.1.data, p.2.data))) ≠ [] := by
      apply joinSep_ne_nil
      · simp
      · intro l hl
        rcases List.mem_map.mp hl with ⟨p, _, hpl⟩
        exact hpl ▸ encodeEntry_ne_nil _
    rw [if_neg hnonempty]
    rw [splitSep_joinSep _ (by simp) hlines]
    have hmap : ((kv :: cfg').map (fun p => encodeEntry (p.1.data, p.2.data))) =
        (((kv :: cfg').map (fun p => (p.1.data, p.2.data))).map encodeEntry) := by
      rw [List.map_map]
      rfl
    rw [hmap, decodeLines_map]
    show Except.ok ((((kv :: cfg').map fun p => (p.1.data, p.2.data)).map
        fun q => (String.mk q.1, String.mk q.2)) : Config) = Except.ok (kv :: cfg')
    rw [List.map_map]
    have hid : ((fun q : List Char × List Char => (String.mk q.1, String.mk q.2)) ∘
        fun p : String × String => (p.1.data, p.2.data)) = id := funext fun p => rfl
    rw [hid, List.map_id]
